import Mathlib

/-!
Shallow embedding of the kurl resource-resolution and tunnel-session core:
the Kubernetes URL parser (`parseKubernetesServiceURL`), the pod resolver
(`findTargetForServiceWithClient`), the target-selection step of
`runPortForward`, the local-URL rewriting (`reconstructURL`), and the
stop-channel cancellation discipline of the tunnel session.

Strings are manipulated through small structurally recursive helpers over
`List Char` so that every definition evaluates by `rfl`/`decide`.
-/

/-- Is `p` a leading segment of `s`?  (Helper for first-occurrence search.) -/
def leadsWith : List Char → List Char → Bool
  | [], _ => true
  | _ :: _, [] => false
  | a :: as, b :: bs => a == b && leadsWith as bs

/-- Cut a character list at the first occurrence of `sep`: the part before and
the part after the separator, or `none` when `sep` does not occur. -/
def findCut (sep : List Char) : List Char → Option (List Char × List Char)
  | [] => if sep.isEmpty then some ([], []) else none
  | c :: cs =>
    if leadsWith sep (c :: cs) then some ([], (c :: cs).drop sep.length)
    else
      match findCut sep cs with
      | some (pre, post) => some (c :: pre, post)
      | none => none

/-- Models Go `net/url`'s internal `split(s, sep, true)`: the part of `s`
before the first occurrence of `sep`, the part after it, and whether `sep`
occurred at all. -/
def cutFirst (s sep : String) : String × String × Bool :=
  match findCut sep.data s.data with
  | some (pre, post) => (String.mk pre, String.mk post, true)
  | none => (s, "", false)

/-- Split a character list on every occurrence of `sep`
(Go `strings.Split` semantics: splitting the empty string gives `[""]`). -/
def splitCharList (sep : Char) : List Char → List (List Char)
  | [] => [[]]
  | c :: cs =>
    match splitCharList sep cs with
    | [] => [[]]
    | h :: t => if c == sep then [] :: h :: t else (c :: h) :: t

/-- Models `strings.Split s "."`. -/
def splitDots (s : String) : List String := (splitCharList '.' s.data).map String.mk

/-- Models `strings.Split s ":"`. -/
def splitColons (s : String) : List String := (splitCharList ':' s.data).map String.mk

/-- ASCII lower-casing of one character. -/
def asciiLowerChar (c : Char) : Char :=
  if 'A' ≤ c ∧ c ≤ 'Z' then Char.ofNat (c.toNat + 32) else c

/-- ASCII lower-casing, as Go's `url.Parse` applies to the URL scheme. -/
def asciiToLower (s : String) : String := String.mk (s.data.map asciiLowerChar)

/-- Characters permitted after the first character of a URL scheme. -/
def isSchemeChar (c : Char) : Bool :=
  c.isAlpha || c.isDigit || c == '+' || c == '-' || c == '.'

/-- Go `net/url` scheme validity: non-empty, starts with a letter, continues
with letters, digits, `+`, `-` or `.`. -/
def validScheme (s : String) : Bool :=
  match s.data with
  | [] => false
  | c :: rest => c.isAlpha && rest.all isSchemeChar

/-- The port digits of an authority string: the text after the LAST colon when
a colon is present, `""` otherwise.  Models `url.URL.Port()` (and the text Go's
`validOptionalPort` validates during parsing). -/
def hostPortString (host : String) : String :=
  match splitColons host with
  | [] => ""
  | [_] => ""
  | ps => ps.getLastD ""

/-- Go's `validOptionalPort` check on an authority: the text after the last
colon (if any) must be all digits.  Bracketed IPv6 hosts are not modeled. -/
def hostPortValid (host : String) : Bool :=
  (hostPortString host).data.all (fun c => c.isDigit)

/-- Value of one hexadecimal digit, `none` for a non-hex character. -/
def hexDigitVal (c : Char) : Option Nat :=
  if '0' ≤ c ∧ c ≤ '9' then some (c.toNat - 48)
  else if 'a' ≤ c ∧ c ≤ 'f' then some (c.toNat - 87)
  else if 'A' ≤ c ∧ c ≤ 'F' then some (c.toNat - 55)
  else none

/-- Percent-escape decoding, as `net/url`'s `unescape` performs on the path
and fragment during parsing: every `%` must be followed by two hex digits and
decodes to the escaped character; anything else is an invalid-escape error
(`none`).  Escapes of non-ASCII byte sequences are not modeled. -/
def percentDecode : List Char → Option (List Char)
  | [] => some []
  | '%' :: c1 :: c2 :: rest =>
    match hexDigitVal c1, hexDigitVal c2 with
    | some h1, some h2 =>
      match percentDecode rest with
      | some ds => some (Char.ofNat (16 * h1 + h2) :: ds)
      | none => none
    | _, _ => none
  | '%' :: _ => none
  | c :: rest =>
    match percentDecode rest with
    | some ds => some (c :: ds)
    | none => none

/-- The RFC 3986 unreserved characters (`shouldEscape`'s first group). -/
def isUnreservedChar (c : Char) : Bool :=
  c.isAlpha || c.isDigit || c == '-' || c == '_' || c == '.' || c == '~'

/-- Go `net/url` `shouldEscape(c, encodePath)`: unreserved characters and the
reserved set except `?` stay literal in a path; everything else is escaped. -/
def shouldEscapePath (c : Char) : Bool :=
  if isUnreservedChar c then false
  else if c == '$' || c == '&' || c == '+' || c == ',' || c == '/' || c == ':' ||
      c == ';' || c == '=' || c == '@' then false
  else true

/-- Go `net/url` `shouldEscape(c, encodeFragment)`: unreserved characters, the
whole reserved set and `!()*` stay literal in a fragment. -/
def shouldEscapeFragment (c : Char) : Bool :=
  if isUnreservedChar c then false
  else if c == '$' || c == '&' || c == '+' || c == ',' || c == '/' || c == ':' ||
      c == ';' || c == '=' || c == '?' || c == '@' then false
  else if c == '!' || c == '(' || c == ')' || c == '*' then false
  else true

/-- Upper-case hex digit of a value below 16 (Go escapes with upper case). -/
def hexUpperDigit (n : Nat) : Char :=
  if n < 10 then Char.ofNat (48 + n) else Char.ofNat (55 + n)

/-- The three-character escape `%XX` of one (ASCII) character. -/
def percentEncodeChar (c : Char) : List Char :=
  ['%', hexUpperDigit (c.toNat / 16 % 16), hexUpperDigit (c.toNat % 16)]

/-- Go `net/url`'s `escape`: escape exactly the characters the predicate
selects, leave the rest literal. -/
def escapeWith (f : Char → Bool) (l : List Char) : List Char :=
  l.foldr (fun c acc => if f c then percentEncodeChar c ++ acc else c :: acc) []

/-- Canonical path encoding, `escape(s, encodePath)`. -/
def escapePath (s : String) : String := String.mk (escapeWith shouldEscapePath s.data)

/-- Canonical fragment encoding, `escape(s, encodeFragment)`. -/
def escapeFragment (s : String) : String := String.mk (escapeWith shouldEscapeFragment s.data)

/-- The components of a parsed URL that kurl consumes: models Go's `url.URL`
with `Host` carrying the `host:port` authority.  `path` and `fragment` are the
percent-DECODED components (`url.URL.Path` / `.Fragment`); `rawPath` and
`rawFragment` carry the verbatim text from the URL.  (Go's `setPath` leaves
`RawPath` empty when the canonical encoding of `Path` equals the original
text; since `EscapedPath()` then re-escapes `Path` back to that same text,
storing the verbatim text unconditionally is extensionally the same, and a
URL built directly — as `reconstructURL` does — has `rawPath = ""`.) -/
structure GoURL where
  scheme : String
  host : String
  path : String
  rawPath : String
  rawQuery : String
  fragment : String
  rawFragment : String
  deriving DecidableEq, Repr

/-- Models Go `url.Parse` for the URL shapes kurl consumes: the fragment is
split off at the first `#`, the query at the first `?`, the scheme before
`://` (lower-cased, validated), the authority up to the first `/`, and the
authority's optional `:port` suffix must be all digits.  The path and the
fragment are percent-DECODED (`setPath`/`setFragment`), keeping the verbatim
text in `rawPath`/`rawFragment`; an invalid escape is a parse error.  The
query is kept verbatim (Go validates it only later, in `Query()`).  A string
without a valid `scheme://` yields an empty `Host` as Go's opaque/path-only
parse does (kurl then rejects it for having fewer than three host labels);
that branch keeps the text verbatim, approximating Go's opaque handling.
Escapes in the host, userinfo and bracketed IPv6 hosts are not modeled. -/
def goURLParse (rawURL : String) : Except String GoURL :=
  match cutFirst rawURL "#" with
  | (beforeFrag, fragment, _) =>
    match cutFirst beforeFrag "?" with
    | (beforeQuery, rawQuery, _) =>
      match cutFirst beforeQuery "://" with
      | (schemeRaw, rem, hasScheme) =>
        if hasScheme && validScheme schemeRaw then
          match cutFirst rem "/" with
          | (authority, pathRest, hasSlash) =>
            if hostPortValid authority then
              match percentDecode (if hasSlash then "/" ++ pathRest else "").data,
                  percentDecode fragment.data with
              | some pathDec, some fragDec =>
                Except.ok { scheme := asciiToLower schemeRaw, host := authority,
                            path := String.mk pathDec,
                            rawPath := if hasSlash then "/" ++ pathRest else "",
                            rawQuery := rawQuery,
                            fragment := String.mk fragDec, rawFragment := fragment }
              | _, _ => Except.error ("parse " ++ rawURL ++ ": invalid URL escape")
            else Except.error ("parse " ++ rawURL ++ ": invalid port after host")
        else
          match percentDecode fragment.data with
          | some fragDec =>
            Except.ok { scheme := "", host := "", path := beforeQuery,
                        rawPath := beforeQuery, rawQuery := rawQuery,
                        fragment := String.mk fragDec, rawFragment := fragment }
          | none => Except.error ("parse " ++ rawURL ++ ": invalid URL escape")

/-- Numeric value of a digit list (most significant first). -/
def digitsVal (l : List Char) : Nat := l.foldl (fun acc c => acc * 10 + (c.toNat - 48)) 0

/-- Models Go `strconv.Atoi` on the digit strings kurl feeds it (URL port
texts, already validated to be digits): a non-empty all-digit string parses to
its value, errors past the 64-bit signed range; anything else is a syntax
error.  Signs never reach this function in kurl, so they are not modeled. -/
def goAtoi (s : String) : Except String Int :=
  if s.data ≠ [] ∧ s.data.all (fun c => c.isDigit) then
    let n := digitsVal s.data
    if n ≤ 9223372036854775807 then Except.ok (Int.ofNat n)
    else Except.error ("strconv.Atoi: parsing \"" ++ s ++ "\": value out of range")
  else Except.error ("strconv.Atoi: parsing \"" ++ s ++ "\": invalid syntax")

/-- Models `url.URL.String()` for the URLs kurl handles: `scheme:` when a
scheme is present, `//host` when a host is present, then `EscapedPath()` —
the verbatim `rawPath` when one is recorded, else the canonical re-encoding
of the decoded path — `?query` verbatim when non-empty, and `#` plus
`EscapedFragment()` when the decoded fragment is non-empty. -/
def urlToString (u : GoURL) : String :=
  (if u.scheme = "" then "" else u.scheme ++ ":") ++
    (if u.host = "" then "" else "//" ++ u.host) ++
    (if u.rawPath = "" then escapePath u.path else u.rawPath) ++
    (if u.rawQuery = "" then "" else "?" ++ u.rawQuery) ++
    (if u.fragment = "" then "" else
      "#" ++ (if u.rawFragment = "" then escapeFragment u.fragment else u.rawFragment))

/-- The resource kinds of curl.go: `resourceType` with its six constants
`resourceTypePod = "pods"`, `resourceTypeSvc = "services"`, ... -/
inductive resourceType where
  | pods
  | services
  | deployments
  | statefulsets
  | daemonsets
  | replicasets
  deriving DecidableEq, Repr

/-- The Go string value of each `resourceType` constant (`string(res.Kind)`). -/
def resourceTypeName : resourceType → String
  | .pods => "pods"
  | .services => "services"
  | .deployments => "deployments"
  | .statefulsets => "statefulsets"
  | .daemonsets => "daemonsets"
  | .replicasets => "replicasets"

/-- The target descriptor.  curl.go declares the field-identical records
`forwardTarget` (namespace, name, kind, port) and `ForwardTarget`
(Name, Namespace, Kind, Port), converted field-wise in main; they are modeled
as this one structure.  `ns` stands for the Go field `Namespace`
(`namespace` is a reserved word in Lean). -/
structure ForwardTarget where
  name : String
  ns : String
  kind : resourceType
  port : Int
  deriving DecidableEq, Repr

/-- One lowercase-alphanumeric character (the character class of
`resourceNameRegex`). -/
def isLowerAlnum (c : Char) : Bool :=
  ('a' ≤ c && c ≤ 'z') || ('0' ≤ c && c ≤ '9')

/-- curl.go's `resourceNameRegex = ^[a-z0-9]([-a-z0-9]*[a-z0-9])?$`:
lowercase alphanumeric, optionally hyphenated inside, never starting or
ending with a hyphen. -/
def resourceNameOk (s : String) : Bool :=
  match s.data with
  | [] => false
  | c :: rest =>
    isLowerAlnum c &&
      (rest.isEmpty ||
        (rest.dropLast.all (fun d => isLowerAlnum d || d == '-') &&
          isLowerAlnum (rest.getLastD 'a')))

/-- The error text of curl.go's unsupported-kind branch. -/
def unsupportedKindMsg (tok : String) : String :=
  "unsupported resource type: " ++ tok ++
    " (supported: svc, pod, deploy, deployment, sts, statefulset, ds, daemonset, rs, replicaset)"

/-- The kind-token dispatch of `parseKubernetesServiceURL` (curl.go lines
241-256): the if/else-if chain on `parts[2]`. -/
def matchKindToken (tok : String) : Except String resourceType :=
  if tok = "svc" then Except.ok resourceType.services
  else if tok = "pod" then Except.ok resourceType.pods
  else if tok = "deploy" ∨ tok = "deployment" then Except.ok resourceType.deployments
  else if tok = "sts" ∨ tok = "statefulset" then Except.ok resourceType.statefulsets
  else if tok = "ds" ∨ tok = "daemonset" then Except.ok resourceType.daemonsets
  else if tok = "rs" ∨ tok = "replicaset" then Except.ok resourceType.replicasets
  else Except.error (unsupportedKindMsg tok)

/-- The dot-separated labels of the URL host:
`strings.Split(strings.Split(parsedURL.Host, ":")[0], ".")`. -/
def hostLabels (u : GoURL) : List String :=
  splitDots ((splitColons u.host).headD "")

/-- The port-extraction step of `parseKubernetesServiceURL` (curl.go lines
221-236): the URL's explicit port via `strconv.Atoi`, else 443 for the https
scheme, else 80. -/
def extractPort (u : GoURL) : Except String Int :=
  let portStr := hostPortString u.host
  if portStr = "" then Except.ok (if u.scheme = "https" then 443 else 80)
  else goAtoi portStr

/-- curl.go's `parseKubernetesServiceURL` (lines 206-269): parse the URL,
require at least three dot-separated host labels, extract the port, dispatch
the kind token, validate name and namespace against `resourceNameRegex`, and
build the target descriptor `⟨name, namespace, kind, port⟩`. -/
def parseKubernetesServiceURL (rawURL : String) : Except String ForwardTarget :=
  match goURLParse rawURL with
  | Except.error e => Except.error ("invalid URL: " ++ e)
  | Except.ok u =>
    let parts := hostLabels u
    if parts.length < 3 then
      Except.error ("invalid Kubernetes service URL format: " ++ rawURL)
    else
      match extractPort u with
      | Except.error e => Except.error ("invalid port in URL: " ++ e)
      | Except.ok port =>
        let resourceName := parts.getD 0 ""
        let nsName := parts.getD 1 ""
        match matchKindToken (parts.getD 2 "") with
        | Except.error e => Except.error e
        | Except.ok kind =>
          if resourceNameOk resourceName = false then
            Except.error ("invalid resource name: " ++ resourceName)
          else if resourceNameOk nsName = false then
            Except.error ("invalid namespace: " ++ nsName)
          else Except.ok ⟨resourceName, nsName, kind, port⟩

/-- The function `reconstructURL` (the current main variant): re-parse the
original URL and rebuild it with `localhost:<localPort>` as the host, copying
the DECODED `Path`, the raw query and the DECODED `Fragment` into a fresh
`url.URL` — the Go struct literal sets neither `RawPath` nor `RawFragment`,
so `String()` re-encodes path and fragment canonically.  On a parse failure
the original string is returned. -/
def reconstructURL (originalURL : String) (localPort : Int) : String :=
  match goURLParse originalURL with
  | Except.error _ => originalURL
  | Except.ok parsedURL =>
    urlToString { scheme := parsedURL.scheme, host := "localhost:" ++ toString localPort,
                  path := parsedURL.path, rawPath := "",
                  rawQuery := parsedURL.rawQuery,
                  fragment := parsedURL.fragment, rawFragment := "" }

/-- One matching requirement set, as produced by the two selector conversions
curl.go uses.  `reqList reqs` matches a label map satisfying every
key-equals-value requirement (an empty list matches everything, like
`labels.Everything()`); `nothing` models `labels.Nothing()`. -/
inductive Selector where
  | reqList (reqs : List (String × String))
  | nothing
  deriving DecidableEq, Repr

/-- Does `sel` match the label map `lbls`?  (`labels.Selector.Matches`.) -/
def selectorMatches : Selector → List (String × String) → Bool
  | .nothing, _ => false
  | .reqList reqs, lbls => reqs.all (fun kv => lbls.lookup kv.1 == some kv.2)

/-- Models `labels.Set(m).AsSelector()`: one equality requirement per entry of the
map; the empty (or absent) map becomes the match-everything selector. -/
def labelsSetAsSelector (m : List (String × String)) : Selector :=
  Selector.reqList m

/-- Models `metav1.LabelSelector`: only `matchLabels` is modeled —
`matchExpressions` is never used by this repository. -/
structure LabelSelector where
  matchLabels : List (String × String)
  deriving DecidableEq, Repr

/-- Models `metav1.LabelSelectorAsSelector`: a nil selector converts to
`labels.Nothing()`; `matchLabels` become equality requirements.  The Go
function can only error on invalid `matchExpressions` operators, which are not
modeled, so this model never errors. -/
def labelSelectorAsSelector : Option LabelSelector → Except String Selector
  | none => Except.ok Selector.nothing
  | some ls => Except.ok (Selector.reqList ls.matchLabels)

/-- A `corev1.Service` as curl.go consumes it: only `Spec.Selector`. -/
structure KubeService where
  specSelector : List (String × String)
  deriving DecidableEq, Repr

/-- An apps/v1 workload (Deployment, StatefulSet, DaemonSet or ReplicaSet) as
curl.go consumes it: only `Spec.Selector`, a possibly-nil `LabelSelector`. -/
structure KubeWorkload where
  specSelector : Option LabelSelector
  deriving DecidableEq, Repr

/-- One item of a `corev1.PodList`; curl.go reads only `GetName()`. -/
structure PodItem where
  name : String
  deriving DecidableEq, Repr

/-- curl.go's `KubeClient` interface: the injected cluster-query capability.
Fallible calls return `Except`, standing for Go's `(value, error)` pairs. -/
structure KubeClient where
  getService : String → String → Except String KubeService
  getDeployment : String → String → Except String KubeWorkload
  getStatefulSet : String → String → Except String KubeWorkload
  getDaemonSet : String → String → Except String KubeWorkload
  getReplicaSet : String → String → Except String KubeWorkload
  listPods : String → Selector → Except String (List PodItem)

/-- A record of one cluster query, used to observe which queries
`findTargetForServiceWithClient` performs. -/
inductive ClusterQuery where
  | getService (ns name : String)
  | getDeployment (ns name : String)
  | getStatefulSet (ns name : String)
  | getDaemonSet (ns name : String)
  | getReplicaSet (ns name : String)
  | listPods (ns : String) (sel : Selector)
  deriving DecidableEq, Repr

/-- The selector-fetch step of `findTargetForServiceWithClient` (the per-kind
cases of curl.go's switch, lines 368-415): get the resource, convert its
selector.  The `pods` case is unreachable — the caller returns before any
fetch for Pod kind (curl.go line 418). -/
def fetchSelector (client : KubeClient) (res : ForwardTarget) : Except String Selector :=
  match res.kind with
  | .services =>
    match client.getService res.ns res.name with
    | Except.error e =>
      Except.error ("failed to get service " ++ res.name ++ " in namespace " ++ res.ns ++ ": " ++ e)
    | Except.ok service => Except.ok (labelsSetAsSelector service.specSelector)
  | .deployments =>
    match client.getDeployment res.ns res.name with
    | Except.error e =>
      Except.error ("failed to get deployment " ++ res.name ++ " in namespace " ++ res.ns ++ ": " ++ e)
    | Except.ok deployment =>
      match labelSelectorAsSelector deployment.specSelector with
      | Except.error e =>
        Except.error ("failed to convert deployment selector to labels selector: " ++ e)
      | Except.ok sel => Except.ok sel
  | .statefulsets =>
    match client.getStatefulSet res.ns res.name with
    | Except.error e =>
      Except.error ("failed to get statefulset " ++ res.name ++ " in namespace " ++ res.ns ++ ": " ++ e)
    | Except.ok statefulset =>
      match labelSelectorAsSelector statefulset.specSelector with
      | Except.error e =>
        Except.error ("failed to convert statefulset selector to labels selector: " ++ e)
      | Except.ok sel => Except.ok sel
  | .daemonsets =>
    match client.getDaemonSet res.ns res.name with
    | Except.error e =>
      Except.error ("failed to get daemonset " ++ res.name ++ " in namespace " ++ res.ns ++ ": " ++ e)
    | Except.ok daemonset =>
      match labelSelectorAsSelector daemonset.specSelector with
      | Except.error e =>
        Except.error ("failed to convert daemonset selector to labels selector: " ++ e)
      | Except.ok sel => Except.ok sel
  | .replicasets =>
    match client.getReplicaSet res.ns res.name with
    | Except.error e =>
      Except.error ("failed to get replicaset " ++ res.name ++ " in namespace " ++ res.ns ++ ": " ++ e)
    | Except.ok replicaset =>
      match labelSelectorAsSelector replicaset.specSelector with
      | Except.error e =>
        Except.error ("failed to convert replicaset selector to labels selector: " ++ e)
      | Except.ok sel => Except.ok sel
  | .pods => Except.error "unreachable: Pod kind is handled before any selector fetch"

/-- The one get-query the selector fetch performs for each non-Pod kind
(the `pods` value is a placeholder: for Pod kind no query happens at all). -/
def fetchQuery (res : ForwardTarget) : ClusterQuery :=
  match res.kind with
  | .services => ClusterQuery.getService res.ns res.name
  | .deployments => ClusterQuery.getDeployment res.ns res.name
  | .statefulsets => ClusterQuery.getStatefulSet res.ns res.name
  | .daemonsets => ClusterQuery.getDaemonSet res.ns res.name
  | .replicasets => ClusterQuery.getReplicaSet res.ns res.name
  | .pods => ClusterQuery.getService res.ns res.name

/-- curl.go's `findTargetForServiceWithClient` (lines 364-443), instrumented
with the list of cluster queries performed: Pod kind returns the descriptor
unchanged with no query; otherwise fetch the kind's selector, list pods
matching it, fail when none match, else build a new Pod-kind descriptor
naming the FIRST listed pod, with the input's namespace and port. -/
def findTargetForServiceWithClient (client : KubeClient) (res : ForwardTarget) :
    Except String ForwardTarget × List ClusterQuery :=
  match res.kind with
  | .pods => (Except.ok res, [])
  | _ =>
    match fetchSelector client res with
    | Except.error e => (Except.error e, [fetchQuery res])
    | Except.ok selector =>
      match client.listPods res.ns selector with
      | Except.error e =>
        (Except.error ("failed to list pods for " ++ resourceTypeName res.kind ++ " " ++
            res.name ++ ": " ++ e),
          [fetchQuery res, ClusterQuery.listPods res.ns selector])
      | Except.ok pods =>
        match pods with
        | [] =>
          (Except.error ("no pods found for " ++ resourceTypeName res.kind ++ " " ++
              res.name ++ " in namespace " ++ res.ns),
            [fetchQuery res, ClusterQuery.listPods res.ns selector])
        | p :: _ =>
          (Except.ok ⟨p.name, res.ns, resourceType.pods, res.port⟩,
            [fetchQuery res, ClusterQuery.listPods res.ns selector])

/-- The target-selection step of curl.go's `runPortForward` (lines 453-462):
the descriptor handed to the port-forward tunnel.  Only a Service-kind
descriptor is passed through the resolver (`findTargetForService`); every
other kind is handed to the tunnel as-is.  The tunnel then POSTs to
`.../<string(target.Kind)>/<target.Name>/portforward`. -/
def runPortForwardTarget (client : KubeClient) (res : ForwardTarget) :
    Except String ForwardTarget :=
  if res.kind = resourceType.services then (findTargetForServiceWithClient client res).1
  else Except.ok res

/-- A pod as stored in the cluster, with its labels. -/
structure ClusterPod where
  name : String
  ns : String
  podLabels : List (String × String)
  deriving DecidableEq, Repr

/-- A service as stored in the cluster. -/
structure ClusterService where
  name : String
  ns : String
  selector : List (String × String)
  deriving DecidableEq, Repr

/-- An apps/v1 workload as stored in the cluster. -/
structure ClusterWorkload where
  name : String
  ns : String
  selector : Option LabelSelector
  deriving DecidableEq, Repr

/-- A cluster's backing data: the pod list is kept in the order the API
returns it (pods of all namespaces; listing filters by namespace). -/
structure Cluster where
  services : List ClusterService
  deployments : List ClusterWorkload
  statefulsets : List ClusterWorkload
  daemonsets : List ClusterWorkload
  replicasets : List ClusterWorkload
  pods : List ClusterPod
  deriving Repr

/-- Models the injected cluster-query capability over concrete backing data —
the behavior of the Kubernetes API as exercised through `RealKubeClient` (and
the fake clientset of the repository's tests): get-by-name lookups, and pod
listing filtered by namespace and selector match, preserving list order. -/
def fakeClient (c : Cluster) : KubeClient where
  getService := fun ns name =>
    match c.services.find? (fun s => s.ns == ns && s.name == name) with
    | some s => Except.ok ⟨s.selector⟩
    | none => Except.error ("services \"" ++ name ++ "\" not found")
  getDeployment := fun ns name =>
    match c.deployments.find? (fun d => d.ns == ns && d.name == name) with
    | some d => Except.ok ⟨d.selector⟩
    | none => Except.error ("deployments.apps \"" ++ name ++ "\" not found")
  getStatefulSet := fun ns name =>
    match c.statefulsets.find? (fun d => d.ns == ns && d.name == name) with
    | some d => Except.ok ⟨d.selector⟩
    | none => Except.error ("statefulsets.apps \"" ++ name ++ "\" not found")
  getDaemonSet := fun ns name =>
    match c.daemonsets.find? (fun d => d.ns == ns && d.name == name) with
    | some d => Except.ok ⟨d.selector⟩
    | none => Except.error ("daemonsets.apps \"" ++ name ++ "\" not found")
  getReplicaSet := fun ns name =>
    match c.replicasets.find? (fun d => d.ns == ns && d.name == name) with
    | some d => Except.ok ⟨d.selector⟩
    | none => Except.error ("replicasets.apps \"" ++ name ++ "\" not found")
  listPods := fun ns sel =>
    Except.ok ((c.pods.filter (fun p => p.ns == ns && selectorMatches sel p.podLabels)).map
      (fun p => ⟨p.name⟩))

/-- The stop channel of a tunnel session: Go declares it as a one-slot channel of empty structs,
reduced to the one observable fact kurl uses — whether it has been closed. -/
structure StopChannel where
  isClosed : Bool
  deriving DecidableEq, Repr

/-- A Go runtime fault. -/
inductive GoRuntimePanic where
  | closeOfClosedChannel
  deriving DecidableEq, Repr

/-- The session state the caller can affect: the stop channel, and whether the
local listening port has been released (the portforward machinery closes the
local listener when the stop channel closes and `ForwardPorts` returns). -/
structure TunnelSessionState where
  stopCh : StopChannel
  localPortReleased : Bool
  deriving DecidableEq, Repr

/-- The cancellation handle of a tunnel session, exactly as every call site in
main uses it: `close(stopCh)`.  Per Go channel semantics, closing an
already-closed channel is a runtime panic; closing an open one terminates
`ForwardPorts`, which releases the local listening port. -/
def cancelPortForward (s : TunnelSessionState) : Except GoRuntimePanic TunnelSessionState :=
  if s.stopCh.isClosed then Except.error GoRuntimePanic.closeOfClosedChannel
  else Except.ok ⟨⟨true⟩, true⟩

/-- A cluster holding a deployment whose selector is backed by a running pod,
mirroring the repository test `TestFindTargetForDeployment`. -/
def demoCluster : Cluster :=
  ⟨[], [⟨"test-deployment", "test-namespace", some ⟨[("app", "test-app")]⟩⟩], [], [], [],
    [⟨"test-pod", "test-namespace", [("app", "test-app")]⟩]⟩

/-- The supported kind-token vocabulary, in source order. -/
def supportedKindTokens : List String :=
  ["svc", "pod", "deploy", "deployment", "sts", "statefulset", "ds", "daemonset",
    "rs", "replicaset"]

/-- C1: refuted by the code — `runPortForward` passes a Deployment-kind
descriptor to the tunnel unresolved.  Its target selection invokes the
resolver only for Service kind, so a Deployment-kind descriptor reaches the
tunnel with kind `deployments`, even though the resolver, run on the very same
cluster data, would have rewritten it to the backing Pod. -/
theorem deployment_reaches_tunnel_unresolved :
    runPortForwardTarget (fakeClient demoCluster)
        ⟨"test-deployment", "test-namespace", resourceType.deployments, 8080⟩ =
      Except.ok ⟨"test-deployment", "test-namespace", resourceType.deployments, 8080⟩ ∧
    resourceType.deployments ≠ resourceType.pods ∧
    (findTargetForServiceWithClient (fakeClient demoCluster)
        ⟨"test-deployment", "test-namespace", resourceType.deployments, 8080⟩).1 =
      Except.ok ⟨"test-pod", "test-namespace", resourceType.pods, 8080⟩ :=
  ⟨rfl, by decide, rfl⟩

/-- C3 counterexample: the second cancel through the session's cancellation
handle is NOT a no-op — closing the already-closed stop channel is a Go
runtime panic. -/
theorem second_cancel_panics :
    (cancelPortForward ⟨⟨false⟩, false⟩ >>= cancelPortForward) =
      Except.error GoRuntimePanic.closeOfClosedChannel := rfl

/-- C3 amended: cancelling an open session once succeeds and releases the
local port, but cancelling a second time through the same handle faults with
Go's close-of-closed-channel panic instead of being a no-op. -/
theorem cancel_once_releases_port_second_cancel_faults (s : TunnelSessionState)
    (h : s.stopCh.isClosed = false) :
    cancelPortForward s = Except.ok ⟨⟨true⟩, true⟩ ∧
    (cancelPortForward s >>= cancelPortForward) =
      Except.error GoRuntimePanic.closeOfClosedChannel := by
  constructor <;> simp [cancelPortForward, h, Bind.bind, Except.bind]

/-- C3 witness: the amended claim at a fresh session. -/
theorem cancel_once_releases_port_second_cancel_faults_witness :
    cancelPortForward ⟨⟨false⟩, false⟩ = Except.ok ⟨⟨true⟩, true⟩ ∧
    (cancelPortForward ⟨⟨false⟩, false⟩ >>= cancelPortForward) =
      Except.error GoRuntimePanic.closeOfClosedChannel :=
  cancel_once_releases_port_second_cancel_faults ⟨⟨false⟩, false⟩ rfl

/-- C7: resolve on a Pod-kind descriptor is the identity and performs no
cluster query at all: the resolver returns the descriptor unchanged with an
empty query log. -/
theorem resolve_pod_identity_no_query (client : KubeClient) (res : ForwardTarget)
    (h : res.kind = resourceType.pods) :
    findTargetForServiceWithClient client res = (Except.ok res, []) := by
  obtain ⟨n, nsp, k, p⟩ := res
  cases k
  case pods => rfl
  all_goals exact absurd h (by simp)

/-- C7 witness: a Pod-kind descriptor against an empty cluster. -/
theorem resolve_pod_identity_no_query_witness :
    findTargetForServiceWithClient (fakeClient ⟨[], [], [], [], [], []⟩)
        ⟨"test-pod", "default", resourceType.pods, 80⟩ =
      (Except.ok ⟨"test-pod", "default", resourceType.pods, 80⟩, []) :=
  resolve_pod_identity_no_query _ _ rfl

/-- C4: for a non-Pod descriptor, when the selector fetch succeeds and the pod
listing returns a non-empty list, resolve returns a NEW descriptor whose kind
is Pod, whose name is the FIRST pod in listed order, and whose namespace and
port equal the input's (the input itself is immutable and left unchanged). -/
theorem resolve_nonpod_returns_first_pod (client : KubeClient) (res : ForwardTarget)
    (sel : Selector) (p : PodItem) (ps : List PodItem)
    (hk : res.kind ≠ resourceType.pods)
    (hsel : fetchSelector client res = Except.ok sel)
    (hpods : client.listPods res.ns sel = Except.ok (p :: ps)) :
    (findTargetForServiceWithClient client res).1 =
      Except.ok ⟨p.name, res.ns, resourceType.pods, res.port⟩ := by
  obtain ⟨n, nsp, k, prt⟩ := res
  cases k
  case pods => exact absurd rfl hk
  all_goals
    dsimp only at hsel hpods ⊢
    simp [findTargetForServiceWithClient, hsel, hpods]

/-- C4 witness: the cluster of the repository test `TestFindTargetForService`. -/
theorem resolve_nonpod_returns_first_pod_witness :
    (findTargetForServiceWithClient
        (fakeClient ⟨[⟨"test-service", "test-namespace", [("app", "test-app")]⟩],
          [], [], [], [], [⟨"test-pod", "test-namespace", [("app", "test-app")]⟩]⟩)
        ⟨"test-service", "test-namespace", resourceType.services, 8080⟩).1 =
      Except.ok ⟨"test-pod", "test-namespace", resourceType.pods, 8080⟩ :=
  resolve_nonpod_returns_first_pod _ _ (Selector.reqList [("app", "test-app")]) ⟨"test-pod"⟩ []
    (by simp) rfl rfl

/-- C8: for a non-Pod descriptor whose selector fetch succeeds but matches
zero pods, resolve fails with the no-backing-pods error naming the kind, the
name and the namespace — never a successful descriptor. -/
theorem resolve_zero_pods_errors (client : KubeClient) (res : ForwardTarget)
    (sel : Selector)
    (hk : res.kind ≠ resourceType.pods)
    (hsel : fetchSelector client res = Except.ok sel)
    (hpods : client.listPods res.ns sel = Except.ok []) :
    (findTargetForServiceWithClient client res).1 =
      Except.error ("no pods found for " ++ resourceTypeName res.kind ++ " " ++ res.name ++
        " in namespace " ++ res.ns) := by
  obtain ⟨n, nsp, k, prt⟩ := res
  cases k
  case pods => exact absurd rfl hk
  all_goals
    dsimp only at hsel hpods ⊢
    simp [findTargetForServiceWithClient, hsel, hpods, resourceTypeName]

/-- C8 witness: the cluster of the repository test
`TestFindTargetForServiceNoPods` (the service's selector matches no pod). -/
theorem resolve_zero_pods_errors_witness :
    (findTargetForServiceWithClient
        (fakeClient ⟨[⟨"test-service", "test-namespace", [("app", "nonexistent-app")]⟩],
          [], [], [], [], [⟨"test-pod", "test-namespace", [("app", "different-app")]⟩]⟩)
        ⟨"test-service", "test-namespace", resourceType.services, 8080⟩).1 =
      Except.error "no pods found for services test-service in namespace test-namespace" :=
  resolve_zero_pods_errors _ _ (Selector.reqList [("app", "nonexistent-app")])
    (by simp) rfl rfl

/-- C10: a Service whose selector map is empty (absent) is not an error — the
empty label set converts to the match-everything selector, so resolve lists
every pod of the namespace and returns the first, failing with the no-pods
error only when the namespace holds no pods at all. -/
theorem resolve_service_empty_selector (c : Cluster) (nsName svcName : String) (port : Int)
    (hsvc : (fakeClient c).getService nsName svcName = Except.ok ⟨[]⟩) :
    (findTargetForServiceWithClient (fakeClient c)
        ⟨svcName, nsName, resourceType.services, port⟩).1 =
      match c.pods.filter (fun p => p.ns == nsName) with
      | [] =>
        Except.error ("no pods found for services " ++ svcName ++ " in namespace " ++ nsName)
      | p :: _ => Except.ok ⟨p.name, nsName, resourceType.pods, port⟩ := by
  have hsel : fetchSelector (fakeClient c) ⟨svcName, nsName, resourceType.services, port⟩ =
      Except.ok (Selector.reqList []) := by
    simp [fetchSelector, hsvc, labelsSetAsSelector]
  have hlist : (fakeClient c).listPods nsName (Selector.reqList []) =
      Except.ok ((c.pods.filter (fun p => p.ns == nsName)).map (fun p => ⟨p.name⟩)) := by
    simp [fakeClient, selectorMatches]
  simp only [findTargetForServiceWithClient, hsel, hlist]
  cases hpods : c.pods.filter (fun p => p.ns == nsName) <;> simp [resourceTypeName]

/-- C10 witness: a service with an empty selector over a namespace holding two
pods picks the first pod of the namespace. -/
theorem resolve_service_empty_selector_witness :
    (findTargetForServiceWithClient
        (fakeClient ⟨[⟨"test-service", "test-namespace", []⟩], [], [], [], [],
          [⟨"pod-a", "test-namespace", [("x", "1")]⟩, ⟨"pod-b", "test-namespace", []⟩,
            ⟨"pod-c", "other", []⟩]⟩)
        ⟨"test-service", "test-namespace", resourceType.services, 9090⟩).1 =
      Except.ok ⟨"pod-a", "test-namespace", resourceType.pods, 9090⟩ :=
  resolve_service_empty_selector _ "test-namespace" "test-service" 9090 rfl

theorem goAtoi_nonneg (s : String) (v : Int) (h : goAtoi s = Except.ok v) : 0 ≤ v := by
  unfold goAtoi at h
  split at h
  · dsimp only at h
    split at h
    · injection h with h'
      subst h'
      exact Int.ofNat_nonneg _
    · exact absurd h (by simp)
  · exact absurd h (by simp)

theorem parse_unfold_ok (rawURL : String) (u : GoURL) (hu : goURLParse rawURL = Except.ok u)
    (hlen : ¬ ((hostLabels u).length < 3)) (pv : Int) (hpv : extractPort u = Except.ok pv) :
    parseKubernetesServiceURL rawURL =
      match matchKindToken ((hostLabels u).getD 2 "") with
      | Except.error e => Except.error e
      | Except.ok kind =>
        if resourceNameOk ((hostLabels u).getD 0 "") = false then
          Except.error ("invalid resource name: " ++ (hostLabels u).getD 0 "")
        else if resourceNameOk ((hostLabels u).getD 1 "") = false then
          Except.error ("invalid namespace: " ++ (hostLabels u).getD 1 "")
        else Except.ok ⟨(hostLabels u).getD 0 "", (hostLabels u).getD 1 "", kind, pv⟩ := by
  unfold parseKubernetesServiceURL
  rw [hu]
  dsimp only
  rw [if_neg hlen, hpv]

theorem parse_unfold_port_err (rawURL : String) (u : GoURL)
    (hu : goURLParse rawURL = Except.ok u)
    (hlen : ¬ ((hostLabels u).length < 3)) (e : String)
    (hpe : extractPort u = Except.error e) :
    parseKubernetesServiceURL rawURL = Except.error ("invalid port in URL: " ++ e) := by
  unfold parseKubernetesServiceURL
  rw [hu]
  dsimp only
  rw [if_neg hlen, hpe]

theorem matchKindToken_ok_cases (tok : String) (k : resourceType)
    (h : matchKindToken tok = Except.ok k) :
    (tok = "svc" ∧ k = resourceType.services) ∨
    (tok = "pod" ∧ k = resourceType.pods) ∨
    ((tok = "deploy" ∨ tok = "deployment") ∧ k = resourceType.deployments) ∨
    ((tok = "sts" ∨ tok = "statefulset") ∧ k = resourceType.statefulsets) ∨
    ((tok = "ds" ∨ tok = "daemonset") ∧ k = resourceType.daemonsets) ∨
    ((tok = "rs" ∨ tok = "replicaset") ∧ k = resourceType.replicasets) := by
  unfold matchKindToken at h
  by_cases c1 : tok = "svc"
  · rw [if_pos c1] at h
    exact Or.inl ⟨c1, (Except.ok.inj h).symm⟩
  rw [if_neg c1] at h
  by_cases c2 : tok = "pod"
  · rw [if_pos c2] at h
    exact Or.inr (Or.inl ⟨c2, (Except.ok.inj h).symm⟩)
  rw [if_neg c2] at h
  by_cases c3 : tok = "deploy" ∨ tok = "deployment"
  · rw [if_pos c3] at h
    exact Or.inr (Or.inr (Or.inl ⟨c3, (Except.ok.inj h).symm⟩))
  rw [if_neg c3] at h
  by_cases c4 : tok = "sts" ∨ tok = "statefulset"
  · rw [if_pos c4] at h
    exact Or.inr (Or.inr (Or.inr (Or.inl ⟨c4, (Except.ok.inj h).symm⟩)))
  rw [if_neg c4] at h
  by_cases c5 : tok = "ds" ∨ tok = "daemonset"
  · rw [if_pos c5] at h
    exact Or.inr (Or.inr (Or.inr (Or.inr (Or.inl ⟨c5, (Except.ok.inj h).symm⟩))))
  rw [if_neg c5] at h
  by_cases c6 : tok = "rs" ∨ tok = "replicaset"
  · rw [if_pos c6] at h
    exact Or.inr (Or.inr (Or.inr (Or.inr (Or.inr ⟨c6, (Except.ok.inj h).symm⟩))))
  rw [if_neg c6] at h
  exact absurd h (by simp)

theorem matchKindToken_unsupported (tok : String) (h : tok ∉ supportedKindTokens) :
    matchKindToken tok = Except.error (unsupportedKindMsg tok) := by
  simp only [supportedKindTokens, List.mem_cons, List.not_mem_nil, or_false, not_or] at h
  obtain ⟨h1, h2, h3, h4, h5, h6, h7, h8, h9, h10⟩ := h
  unfold matchKindToken
  rw [if_neg h1, if_neg h2, if_neg (not_or.mpr ⟨h3, h4⟩), if_neg (not_or.mpr ⟨h5, h6⟩),
    if_neg (not_or.mpr ⟨h7, h8⟩), if_neg (not_or.mpr ⟨h9, h10⟩)]

/-- C6 counterexample: parse performs no port range check — the URL port
99999 is accepted verbatim, yielding a descriptor whose port exceeds 65535. -/
theorem parse_accepts_out_of_range_port :
    parseKubernetesServiceURL "http://a.b.svc:99999" =
      Except.ok ⟨"a", "b", resourceType.services, 99999⟩ ∧ (65535 : Int) < 99999 :=
  ⟨rfl, by decide⟩

/-- C6 amended: on every successful parse the port is exactly the URL's
explicit decimal port when one is present (no 1–65535 range validation),
otherwise the scheme default — 443 for https, 80 for everything else; it is
always non-negative. -/
theorem parse_port_from_url_or_scheme_default (rawURL : String) (ft : ForwardTarget)
    (h : parseKubernetesServiceURL rawURL = Except.ok ft) :
    ∃ u, goURLParse rawURL = Except.ok u ∧
      ((hostPortString u.host = "" ∧
          ft.port = (if u.scheme = "https" then 443 else 80)) ∨
        (hostPortString u.host ≠ "" ∧ goAtoi (hostPortString u.host) = Except.ok ft.port)) ∧
      0 ≤ ft.port := by
  cases hu : goURLParse rawURL with
  | error e =>
    unfold parseKubernetesServiceURL at h
    rw [hu] at h
    dsimp only at h
    exact absurd h (by simp)
  | ok u =>
    refine ⟨u, rfl, ?_⟩
    by_cases hlen : (hostLabels u).length < 3
    · exfalso
      unfold parseKubernetesServiceURL at h
      rw [hu] at h
      dsimp only at h
      rw [if_pos hlen] at h
      exact absurd h (by simp)
    · cases hp : extractPort u with
      | error e =>
        rw [parse_unfold_port_err rawURL u hu hlen e hp] at h
        exact absurd h (by simp)
      | ok pv =>
        rw [parse_unfold_ok rawURL u hu hlen pv hp] at h
        have hport : ft.port = pv := by
          cases hk : matchKindToken ((hostLabels u).getD 2 "") with
          | error e => rw [hk] at h; exact absurd h (by simp)
          | ok kind =>
            rw [hk] at h
            dsimp only at h
            split at h
            · exact absurd h (by simp)
            · split at h
              · exact absurd h (by simp)
              · rw [← Except.ok.inj h]
        rw [hport]
        unfold extractPort at hp
        dsimp only at hp
        by_cases hps : hostPortString u.host = ""
        · rw [if_pos hps] at hp
          refine ⟨Or.inl ⟨hps, (Except.ok.inj hp).symm⟩, ?_⟩
          rw [← Except.ok.inj hp]
          split <;> decide
        · rw [if_neg hps] at hp
          exact ⟨Or.inr ⟨hps, hp⟩, goAtoi_nonneg _ _ hp⟩

/-- C6 witness: `https://a.b.pod` has no explicit port, so the port defaults
to 443 for the https scheme. -/
theorem parse_port_from_url_or_scheme_default_witness :
    ∃ u, goURLParse "https://a.b.pod" = Except.ok u ∧
      ((hostPortString u.host = "" ∧
          (443 : Int) = (if u.scheme = "https" then 443 else 80)) ∨
        (hostPortString u.host ≠ "" ∧ goAtoi (hostPortString u.host) = Except.ok 443)) ∧
      (0 : Int) ≤ 443 :=
  parse_port_from_url_or_scheme_default "https://a.b.pod" ⟨"a", "b", resourceType.pods, 443⟩ rfl

/-- C5 counterexample: with an unsupported kind token AND an explicit port
whose decimal value overflows a 64-bit int, parse fails with the invalid-port
error, not with the UnsupportedResourceKind error naming the token — port
extraction runs before the kind-token dispatch. -/
theorem parse_bad_kind_shadowed_by_port_error :
    parseKubernetesServiceURL "http://a.b.job:99999999999999999999999" =
      Except.error
        "invalid port in URL: strconv.Atoi: parsing \"99999999999999999999999\": value out of range" ∧
    "invalid port in URL: strconv.Atoi: parsing \"99999999999999999999999\": value out of range" ≠
      unsupportedKindMsg "job" :=
  ⟨rfl, by decide⟩

/-- C5 amended: for every URL whose host splits into at least three labels,
a successful parse maps the third label by exact, case-sensitive token match
(svc→Service, pod→Pod, deploy/deployment→Deployment, sts/statefulset→
StatefulSet, ds/daemonset→DaemonSet, rs/replicaset→ReplicaSet); for any other
third label parse never returns a descriptor, and it fails with the
UnsupportedResourceKind error naming the offending token whenever port
extraction succeeded (an explicit port overflowing a 64-bit int is reported
as an invalid-port error first). -/
theorem parse_kind_token_dispatch (rawURL : String) (u : GoURL)
    (hu : goURLParse rawURL = Except.ok u) (h3 : 3 ≤ (hostLabels u).length) :
    (∀ ft, parseKubernetesServiceURL rawURL = Except.ok ft →
      (((hostLabels u).getD 2 "" = "svc" ∧ ft.kind = resourceType.services) ∨
        ((hostLabels u).getD 2 "" = "pod" ∧ ft.kind = resourceType.pods) ∨
        (((hostLabels u).getD 2 "" = "deploy" ∨ (hostLabels u).getD 2 "" = "deployment") ∧
          ft.kind = resourceType.deployments) ∨
        (((hostLabels u).getD 2 "" = "sts" ∨ (hostLabels u).getD 2 "" = "statefulset") ∧
          ft.kind = resourceType.statefulsets) ∨
        (((hostLabels u).getD 2 "" = "ds" ∨ (hostLabels u).getD 2 "" = "daemonset") ∧
          ft.kind = resourceType.daemonsets) ∨
        (((hostLabels u).getD 2 "" = "rs" ∨ (hostLabels u).getD 2 "" = "replicaset") ∧
          ft.kind = resourceType.replicasets))) ∧
    ((hostLabels u).getD 2 "" ∉ supportedKindTokens →
      (∀ ft, parseKubernetesServiceURL rawURL ≠ Except.ok ft) ∧
      ∀ pv, extractPort u = Except.ok pv →
        parseKubernetesServiceURL rawURL =
          Except.error (unsupportedKindMsg ((hostLabels u).getD 2 ""))) := by
  have hlen : ¬ ((hostLabels u).length < 3) := by omega
  constructor
  · intro ft hft
    cases hp : extractPort u with
    | error e =>
      rw [parse_unfold_port_err rawURL u hu hlen e hp] at hft
      exact absurd hft (by simp)
    | ok pv =>
      rw [parse_unfold_ok rawURL u hu hlen pv hp] at hft
      cases hk : matchKindToken ((hostLabels u).getD 2 "") with
      | error e => rw [hk] at hft; exact absurd hft (by simp)
      | ok kind =>
        rw [hk] at hft
        dsimp only at hft
        split at hft
        · exact absurd hft (by simp)
        · split at hft
          · exact absurd hft (by simp)
          · have hkind : ft.kind = kind := by rw [← Except.ok.inj hft]
            rw [hkind]
            exact matchKindToken_ok_cases _ _ hk
  · intro hnot
    have hk := matchKindToken_unsupported _ hnot
    constructor
    · intro ft hft
      cases hp : extractPort u with
      | error e =>
        rw [parse_unfold_port_err rawURL u hu hlen e hp] at hft
        exact absurd hft (by simp)
      | ok pv =>
        rw [parse_unfold_ok rawURL u hu hlen pv hp, hk] at hft
        exact absurd hft (by simp)
    · intro pv hp
      rw [parse_unfold_ok rawURL u hu hlen pv hp, hk]

/-- C5 witness: with a well-formed port, the unsupported token `job` yields
exactly the UnsupportedResourceKind error naming it. -/
theorem parse_kind_token_dispatch_witness :
    parseKubernetesServiceURL "http://a.b.job:80" = Except.error (unsupportedKindMsg "job") :=
  ((parse_kind_token_dispatch "http://a.b.job:80" ⟨"http", "a.b.job:80", "", "", "", "", ""⟩ rfl
      (by decide)).2 (by decide)).2 80 rfl

/-- C9: parse only inspects the first three host labels (besides the scheme
and the port text): any two accepted URLs whose hosts agree on the first three
labels — in particular a URL and the same URL with trailing suffix labels such
as `.cluster.local` appended — parse to identical results. -/
theorem parse_ignores_suffix_labels (raw1 raw2 : String) (u1 u2 : GoURL)
    (hu1 : goURLParse raw1 = Except.ok u1) (hu2 : goURLParse raw2 = Except.ok u2)
    (hscheme : u2.scheme = u1.scheme)
    (hport : hostPortString u2.host = hostPortString u1.host)
    (suffix : List String) (hlab : hostLabels u2 = hostLabels u1 ++ suffix)
    (h3 : 3 ≤ (hostLabels u1).length) :
    parseKubernetesServiceURL raw2 = parseKubernetesServiceURL raw1 := by
  have hlen1 : ¬ ((hostLabels u1).length < 3) := by omega
  have hlen2 : ¬ ((hostLabels u2).length < 3) := by
    rw [hlab, List.length_append]
    omega
  have hep : extractPort u2 = extractPort u1 := by
    unfold extractPort
    rw [hscheme, hport]
  have hgd : ∀ i, i < (hostLabels u1).length →
      (hostLabels u2).getD i "" = (hostLabels u1).getD i "" := by
    intro i hi
    rw [hlab]
    exact List.getD_append _ _ _ _ hi
  cases hp : extractPort u1 with
  | error e =>
    rw [parse_unfold_port_err raw1 u1 hu1 hlen1 e hp,
      parse_unfold_port_err raw2 u2 hu2 hlen2 e (by rw [hep]; exact hp)]
  | ok pv =>
    rw [parse_unfold_ok raw1 u1 hu1 hlen1 pv hp,
      parse_unfold_ok raw2 u2 hu2 hlen2 pv (by rw [hep]; exact hp)]
    simp only [hgd 0 (by omega), hgd 1 (by omega), hgd 2 (by omega)]

/-- C9 witness: appending `.cluster.local` after the kind token leaves the
parse result unchanged. -/
theorem parse_ignores_suffix_labels_witness :
    parseKubernetesServiceURL "http://svcname.ns.svc.cluster.local:9090" =
      parseKubernetesServiceURL "http://svcname.ns.svc:9090" :=
  parse_ignores_suffix_labels "http://svcname.ns.svc:9090"
    "http://svcname.ns.svc.cluster.local:9090"
    ⟨"http", "svcname.ns.svc:9090", "", "", "", "", ""⟩
    ⟨"http", "svcname.ns.svc.cluster.local:9090", "", "", "", "", ""⟩
    rfl rfl rfl rfl ["cluster", "local"] rfl (by decide)

theorem stringAppendAssoc (a b c : String) : a ++ b ++ c = a ++ (b ++ c) := by
  apply String.ext
  simp only [String.data_append, List.append_assoc]

theorem localhostPrefixNeEmpty (x : String) : ("localhost:" ++ x) ≠ "" := by
  intro h
  have hd : ("localhost:" ++ x).data = ("" : String).data := by rw [h]
  rw [String.data_append] at hd
  simp at hd

theorem asciiToLowerNeEmpty (s : String) (h : validScheme s = true) : asciiToLower s ≠ "" := by
  unfold validScheme at h
  unfold asciiToLower
  cases hd : s.data with
  | nil => rw [hd] at h; simp at h
  | cons c rest =>
    intro hContra
    have hlen2 := congrArg String.length hContra
    rw [String.length_mk, String.length_empty] at hlen2
    simp at hlen2

theorem goURLParse_ok_cases (rawURL : String) (u : GoURL)
    (hu : goURLParse rawURL = Except.ok u) : u.scheme ≠ "" ∨ u.host = "" := by
  unfold goURLParse at hu
  rcases h1 : cutFirst rawURL "#" with ⟨beforeFrag, fragment, f1⟩
  rw [h1] at hu
  dsimp only at hu
  rcases h2 : cutFirst beforeFrag "?" with ⟨beforeQuery, rawQuery, f2⟩
  rw [h2] at hu
  dsimp only at hu
  rcases h3 : cutFirst beforeQuery "://" with ⟨schemeRaw, rem, hasScheme⟩
  rw [h3] at hu
  dsimp only at hu
  split at hu
  case isTrue hcond =>
    rw [Bool.and_eq_true] at hcond
    rcases h4 : cutFirst rem "/" with ⟨authority, pathRest, hasSlash⟩
    rw [h4] at hu
    dsimp only at hu
    split at hu
    · split at hu
      · left
        rw [← Except.ok.inj hu]
        exact asciiToLowerNeEmpty schemeRaw hcond.2
      all_goals exact absurd hu (by simp)
    · exact absurd hu (by simp)
  case isFalse hcond =>
    split at hu
    · right
      rw [← Except.ok.inj hu]
    · exact absurd hu (by simp)

theorem parse_ok_host_ne_empty (rawURL : String) (ft : ForwardTarget) (u : GoURL)
    (h : parseKubernetesServiceURL rawURL = Except.ok ft)
    (hu : goURLParse rawURL = Except.ok u) : u.host ≠ "" := by
  intro hh
  have hl : hostLabels u = [""] := by
    unfold hostLabels
    rw [hh]
    rfl
  unfold parseKubernetesServiceURL at h
  rw [hu] at h
  dsimp only at h
  rw [if_pos (by rw [hl]; decide)] at h
  exact absurd h (by simp)

theorem parse_ok_scheme_ne_empty (rawURL : String) (ft : ForwardTarget) (u : GoURL)
    (h : parseKubernetesServiceURL rawURL = Except.ok ft)
    (hu : goURLParse rawURL = Except.ok u) : u.scheme ≠ "" := by
  cases goURLParse_ok_cases rawURL u hu with
  | inl hs => exact hs
  | inr hh => exact absurd hh (parse_ok_host_ne_empty rawURL ft u h hu)

/-- C2 counterexample: the URL `http://a.b.svc:80/x%2Fy` is accepted by
parse, yet the rewritten local URL carries path `/x/y`: the escaped slash
collapses, because `reconstructURL` rebuilds from the DECODED path of the
parsed URL without `RawPath`, so the original path text is NOT preserved
unchanged. -/
theorem reconstructURL_collapses_path_escape :
    parseKubernetesServiceURL "http://a.b.svc:80/x%2Fy" =
      Except.ok ⟨"a", "b", resourceType.services, 80⟩ ∧
    reconstructURL "http://a.b.svc:80/x%2Fy" 12345 = "http://localhost:12345/x/y" ∧
    reconstructURL "http://a.b.svc:80/x%2Fy" 12345 ≠ "http://localhost:12345/x%2Fy" :=
  ⟨rfl, rfl, by decide⟩

/-- C2 amended: for every URL accepted by parse and every local port, the
rewritten local URL is the original scheme, `://localhost:` and the local
port, then the CANONICAL RE-ENCODING of the percent-decoded path, the raw
query verbatim, and the canonical re-encoding of the percent-decoded
fragment; whenever the original path and fragment text are already in
canonical encoded form (in particular when they contain no percent-escapes of
reserved characters), path, query and fragment are preserved verbatim. -/
theorem reconstructURL_localhost_reencoded (rawURL : String) (ft : ForwardTarget) (u : GoURL)
    (lp : Int) (hacc : parseKubernetesServiceURL rawURL = Except.ok ft)
    (hu : goURLParse rawURL = Except.ok u) :
    reconstructURL rawURL lp =
      u.scheme ++ "://localhost:" ++ toString lp ++ escapePath u.path ++
        (if u.rawQuery = "" then "" else "?" ++ u.rawQuery) ++
        (if u.fragment = "" then "" else "#" ++ escapeFragment u.fragment) ∧
    (escapePath u.path = u.rawPath → escapeFragment u.fragment = u.rawFragment →
      reconstructURL rawURL lp =
        u.scheme ++ "://localhost:" ++ toString lp ++ u.rawPath ++
          (if u.rawQuery = "" then "" else "?" ++ u.rawQuery) ++
          (if u.fragment = "" then "" else "#" ++ u.rawFragment)) := by
  have hs : u.scheme ≠ "" := parse_ok_scheme_ne_empty rawURL ft u hacc hu
  have hmain : reconstructURL rawURL lp =
      u.scheme ++ "://localhost:" ++ toString lp ++ escapePath u.path ++
        (if u.rawQuery = "" then "" else "?" ++ u.rawQuery) ++
        (if u.fragment = "" then "" else "#" ++ escapeFragment u.fragment) := by
    unfold reconstructURL
    rw [hu]
    dsimp only
    unfold urlToString
    dsimp only
    rw [if_neg hs, if_neg (localhostPrefixNeEmpty (toString lp))]
    simp only [reduceIte]
    have key : (u.scheme ++ ":") ++ ("//" ++ ("localhost:" ++ toString lp)) =
        u.scheme ++ "://localhost:" ++ toString lp := by
      have h1 : ("://localhost:" : String) = ":" ++ ("//" ++ "localhost:") := rfl
      rw [stringAppendAssoc, h1, stringAppendAssoc, stringAppendAssoc, stringAppendAssoc]
    rw [key]
  refine ⟨hmain, fun hp hf => ?_⟩
  rw [hmain, hp, hf]

/-- C2 witness: a URL whose path, query and fragment are already canonically
encoded is rewritten to `localhost:12345` with all three preserved verbatim. -/
theorem reconstructURL_localhost_reencoded_witness :
    reconstructURL "http://my-service.default.svc:8080/api/x?q=1#sec" 12345 =
      "http://localhost:12345/api/x?q=1#sec" :=
  (reconstructURL_localhost_reencoded "http://my-service.default.svc:8080/api/x?q=1#sec"
    ⟨"my-service", "default", resourceType.services, 8080⟩
    ⟨"http", "my-service.default.svc:8080", "/api/x", "/api/x", "q=1", "sec", "sec"⟩
    12345 rfl rfl).2 rfl rfl
